import Mathlib

/-!
Liveness heuristics of `faceApiLiveness.js` and `script.js`.

A shallow embedding of the blink / head-movement / emotion logic of the two
scripts.  Numbers that only take part in additions, subtractions and
comparisons are kept in an arbitrary linearly ordered field `α` (so that the
definitions run on `ℚ`); `Math.hypot` needs a square root and lives in `ℝ`.
`Date.now()` is an `Int` number of milliseconds handed to each tick.
-/

/-! ## JavaScript numbers -/

/-- The outcome of a floating-point division, as far as the scripts can observe
it: a finite value, one of the two infinities, or `NaN`. -/
inductive JSNum (α : Type) where
  | fin (v : α)
  | posInf
  | negInf
  | nan
  deriving DecidableEq, Repr

namespace JSNum

variable {α : Type} [LinearOrderedField α]

/-- Division `n / d` of two finite numbers: a zero divisor gives `NaN` for a
zero dividend and an infinity of the dividend's sign otherwise. -/
def div (n d : α) : JSNum α :=
  if d = 0 then
    if n = 0 then nan else if 0 < n then posInf else negInf
  else fin (n / d)

/-- JavaScript `+`. -/
def add : JSNum α → JSNum α → JSNum α
  | fin a, fin b => fin (a + b)
  | nan, _ => nan
  | _, nan => nan
  | posInf, negInf => nan
  | negInf, posInf => nan
  | posInf, _ => posInf
  | _, posInf => posInf
  | negInf, _ => negInf
  | _, negInf => negInf

/-- Division by the positive literal `2`. -/
def half : JSNum α → JSNum α
  | fin a => fin (a / 2)
  | x => x

/-- JavaScript `x < t` against a finite `t`; false on `NaN`. -/
def lt (x : JSNum α) (t : α) : Bool :=
  match x with
  | fin a => decide (a < t)
  | posInf => false
  | negInf => true
  | nan => false

/-- JavaScript `x >= t` against a finite `t`; false on `NaN`. -/
def ge (x : JSNum α) (t : α) : Bool :=
  match x with
  | fin a => decide (t ≤ a)
  | posInf => true
  | negInf => false
  | nan => false

end JSNum

/-! ## Landmarks and detections -/

/-- A landmark point `{x, y}`. -/
structure Point (α : Type) where
  x : α
  y : α
  deriving DecidableEq, Repr

/-- What the scripts read from `detections[0].landmarks`. -/
structure Landmarks (α : Type) where
  getLeftEye : List (Point α)
  getRightEye : List (Point α)
  getNose : List (Point α)

/-- One entry of the array returned by `faceapi.detectAllFaces(...)`;
`expressions` is `Object.entries(expressions)` in iteration order. -/
structure Detection (α : Type) where
  landmarks : Landmarks α
  expressions : List (String × α)

/-- The exception raised when a property is read from `undefined`. -/
inductive JSError where
  | typeError
  deriving DecidableEq, Repr

/-- The three values the variable `lastEyeState` holds: `null`, `'open'`,
`'closed'`. -/
inductive EyeState where
  | eyeNull
  | eyeOpen
  | eyeClosed
  deriving DecidableEq, Repr

/-- A run of a statement sequence over the module variables: the variables
afterwards and the exception that ended it, if any.  An exception does not
undo assignments made before it. -/
structure Outcome (σ : Type) where
  state : σ
  error : Option JSError

/-- The threshold `0.25` both scripts compare the average EAR with. -/
def EAR_THRESHOLD {α : Type} [LinearOrderedField α] : α := 0.25

/-- The debounce window of `faceApiLiveness.js`, in milliseconds. -/
def TIME_THRESHOLD : Int := 200

/-- The library function `Math.hypot(a, b)`, idealised to the exact square root
of the sum of squares: the rounding and overflow of IEEE doubles are not
modelled. -/
noncomputable def hypot (a b : ℝ) : ℝ := Real.sqrt (a * a + b * b)

/-- Function `calculateEAR(eye)` of `faceApiLiveness.js` (and, statement for statement,
`eyeAspectRatio(eye)` of `script.js`).  Reading `.x` of a missing array element
throws.  The arithmetic is exact real arithmetic, not rounded doubles. -/
noncomputable def calculateEAR (eye : List (Point ℝ)) : Except JSError (JSNum ℝ) :=
  match eye[1]?, eye[5]?, eye[2]?, eye[4]?, eye[0]?, eye[3]? with
  | some e1, some e5, some e2, some e4, some e0, some e3 =>
    let p2p6 := hypot (e1.x - e5.x) (e1.y - e5.y)
    let p3p5 := hypot (e2.x - e4.x) (e2.y - e4.y)
    let p1p4 := hypot (e0.x - e3.x) (e0.y - e3.y)
    .ok (JSNum.div (p2p6 + p3p5) (2.0 * p1p4))
  | _, _, _, _, _, _ => .error JSError.typeError

/-- Function `eyeAspectRatio(eye)` of `script.js`, with the same exact
arithmetic as `calculateEAR`. -/
noncomputable def eyeAspectRatio (eye : List (Point ℝ)) : Except JSError (JSNum ℝ) :=
  match eye[1]?, eye[5]?, eye[2]?, eye[4]?, eye[0]?, eye[3]? with
  | some e1, some e5, some e2, some e4, some e0, some e3 =>
    let A := hypot (e1.x - e5.x) (e1.y - e5.y)
    let B := hypot (e2.x - e4.x) (e2.y - e4.y)
    let C := hypot (e0.x - e3.x) (e0.y - e3.y)
    let ear := JSNum.div (A + B) (2.0 * C)
    .ok ear
  | _, _, _, _, _, _ => .error JSError.typeError

/-- Function `getDominantEmotion(expressions)`, identical in both scripts: a left fold
over the entries keeping the running label and maximum. -/
def getDominantEmotion {α : Type} [LinearOrderedField α]
    (expressions : List (String × α)) : String :=
  (expressions.foldl
    (fun (acc : String × α) (entry : String × α) =>
      if entry.2 > acc.2 then (entry.1, entry.2) else acc)
    ("None", 0)).1

/-! ## `faceApiLiveness.js` -/

namespace FaceApiLiveness

/-- The module variables of `faceApiLiveness.js` that the detection code
reads or writes. -/
structure State where
  blinkCount : Nat
  lastEyeState : EyeState
  livenessConfirmed : Bool
  lastBlinkTime : Int
  deriving DecidableEq, Repr

/-- The module variables right after the script is loaded at time `loadTime`. -/
def initialState (loadTime : Int) : State :=
  { blinkCount := 0, lastEyeState := EyeState.eyeNull, livenessConfirmed := false,
    lastBlinkTime := loadTime }

/-- The conditional of `detectBlink` (from `const EAR_THRESHOLD` on), run on
the already computed `avgEAR`, with `Date.now()` returning `currentTime`. -/
def detectBlinkEAR {α : Type} [LinearOrderedField α]
    (avgEAR : JSNum α) (currentTime : Int) (s : State) : State :=
  if avgEAR.lt EAR_THRESHOLD && s.lastEyeState == EyeState.eyeOpen then
    let s1 := { s with lastEyeState := EyeState.eyeClosed }
    if currentTime - s1.lastBlinkTime > TIME_THRESHOLD then
      { s1 with blinkCount := s1.blinkCount + 1, lastBlinkTime := currentTime,
                livenessConfirmed := true }
    else s1
  else if avgEAR.ge EAR_THRESHOLD then
    { s with lastEyeState := EyeState.eyeOpen }
  else s

/-- Function `detectBlink(landmarks)`. -/
noncomputable def detectBlink (landmarks : Landmarks ℝ) (currentTime : Int) (s : State) :
    Outcome State :=
  match calculateEAR landmarks.getLeftEye with
  | .error e => ⟨s, some e⟩
  | .ok leftEAR =>
    match calculateEAR landmarks.getRightEye with
    | .error e => ⟨s, some e⟩
    | .ok rightEAR =>
      let avgEAR := (leftEAR.add rightEAR).half
      ⟨detectBlinkEAR avgEAR currentTime s, none⟩

/-- The body of the `setInterval` callback in `detectFace`, as far as the
module variables go: the drawing calls, `getDominantEmotion` and `updateStatus`
assign none of them. -/
noncomputable def tick (detections : List (Detection ℝ)) (currentTime : Int) (s : State) :
    Outcome State :=
  match detections with
  | d :: _ => detectBlink d.landmarks currentTime s
  | [] => ⟨s, none⟩

/-- Function `resetLivenessDetection()`. -/
def resetLivenessDetection (s : State) : State :=
  { s with blinkCount := 0, livenessConfirmed := false }

/-- Feeding a list of `(avgEAR, Date.now())` readings to the blink conditional,
in order. -/
def feed {α : Type} [LinearOrderedField α] (s : State) : List (JSNum α × Int) → State
  | [] => s
  | r :: rs => feed (detectBlinkEAR r.1 r.2 s) rs

end FaceApiLiveness

/-! ## `script.js` -/

namespace Script

/-- The module variables of `script.js` that the detection code reads or
writes (`movementThreshold` is never assigned and is the constant below). -/
structure State (α : Type) where
  blinkCount : Nat
  lastEyeState : EyeState
  livenessConfirmed : Bool
  lastBlinkTime : Int
  lastHeadPosition : Option (Point α)
  currentEmotion : String
  deriving DecidableEq, Repr

/-- The sensitivity threshold `movementThreshold = 5`. -/
def movementThreshold {α : Type} [LinearOrderedField α] : α := 5

/-- The module variables right after the script is loaded at time `loadTime`. -/
def initialState (α : Type) (loadTime : Int) : State α :=
  { blinkCount := 0, lastEyeState := EyeState.eyeOpen, livenessConfirmed := false,
    lastBlinkTime := loadTime, lastHeadPosition := none, currentEmotion := "None" }

/-- The two conditionals of `detectBlink`, run on the already computed average
`ear`, with `Date.now()` returning `now`. -/
def detectBlinkEAR {α : Type} [LinearOrderedField α]
    (ear : JSNum α) (now : Int) (s : State α) : State α :=
  let s1 :=
    if ear.lt 0.25 then
      if s.lastEyeState == EyeState.eyeOpen then
        { s with blinkCount := s.blinkCount + 1, lastBlinkTime := now,
                 lastEyeState := EyeState.eyeClosed }
      else s
    else { s with lastEyeState := EyeState.eyeOpen }
  if s1.blinkCount > 1 then { s1 with livenessConfirmed := true } else s1

/-- Function `detectBlink(landmarks)`. -/
noncomputable def detectBlink (landmarks : Landmarks ℝ) (now : Int) (s : State ℝ) :
    Outcome (State ℝ) :=
  match eyeAspectRatio landmarks.getLeftEye with
  | .error e => ⟨s, some e⟩
  | .ok leftEAR =>
    match eyeAspectRatio landmarks.getRightEye with
    | .error e => ⟨s, some e⟩
    | .ok rightEAR =>
      let ear := (leftEAR.add rightEAR).half
      ⟨detectBlinkEAR ear now s, none⟩

/-- Function `detectHeadMovement(landmarks)`; reading `nose[0].x` of an empty
array throws before anything is assigned. -/
def detectHeadMovement {α : Type} [LinearOrderedField α]
    (landmarks : Landmarks α) (s : State α) : Outcome (State α) :=
  match landmarks.getNose[0]? with
  | none => ⟨s, some JSError.typeError⟩
  | some n =>
    let currentHeadPosition : Point α := { x := n.x, y := n.y }
    let s1 :=
      match s.lastHeadPosition with
      | some last =>
        let deltaX := |currentHeadPosition.x - last.x|
        let deltaY := |currentHeadPosition.y - last.y|
        let totalMovement := deltaX + deltaY
        if totalMovement > movementThreshold then { s with livenessConfirmed := true } else s
      | none => s
    ⟨{ s1 with lastHeadPosition := some currentHeadPosition }, none⟩

/-- The body of the `setInterval` callback in `detectFace`, as far as the
module variables go.  A throwing call ends the callback; what was assigned
before stays assigned. -/
noncomputable def tick (detections : List (Detection ℝ)) (now : Int) (s : State ℝ) :
    Outcome (State ℝ) :=
  match detections with
  | d :: _ =>
    match detectBlink d.landmarks now s with
    | ⟨s1, some e⟩ => ⟨s1, some e⟩
    | ⟨s1, none⟩ =>
      match detectHeadMovement d.landmarks s1 with
      | ⟨s2, some e⟩ => ⟨s2, some e⟩
      | ⟨s2, none⟩ => ⟨{ s2 with currentEmotion := getDominantEmotion d.expressions }, none⟩
  | [] => ⟨s, none⟩

/-- Function `resetLivenessDetection()`. -/
def resetLivenessDetection {α : Type} (s : State α) : State α :=
  { s with blinkCount := 0, livenessConfirmed := false, lastHeadPosition := none }

/-- Successive interval callbacks: each runs on the variables the previous one
left, whether or not that one threw. -/
noncomputable def run (s : State ℝ) : List (List (Detection ℝ) × Int) → State ℝ
  | [] => s
  | t :: ts => run (tick t.1 t.2 s).state ts

end Script

namespace FaceApiLiveness

/-- Successive interval callbacks: each runs on the variables the previous one
left, whether or not that one threw. -/
noncomputable def run (s : State) : List (List (Detection ℝ) × Int) → State
  | [] => s
  | t :: ts => run (tick t.1 t.2 s).state ts

end FaceApiLiveness

/-! ## Auxiliary notions used to state the properties -/

namespace FaceApiLiveness

/-- A reading is an Open->Closed transition in state `s`: its average EAR is
below the threshold while `lastEyeState` is `'open'`. -/
def closingEdge {α : Type} [LinearOrderedField α] (s : State) (r : JSNum α × Int) : Bool :=
  r.1.lt EAR_THRESHOLD && s.lastEyeState == EyeState.eyeOpen

/-- None of the readings, fed in order from `s`, is an Open->Closed transition. -/
def noClosingEdge {α : Type} [LinearOrderedField α] (s : State) : List (JSNum α × Int) → Bool
  | [] => true
  | r :: rs => !closingEdge s r && noClosingEdge (detectBlinkEAR r.1 r.2 s) rs

end FaceApiLiveness

/-- The loop body of `getDominantEmotion`: keep the entry when its value is
strictly above the running maximum. -/
def dominantStep {α : Type} [LinearOrderedField α] (acc entry : String × α) : String × α :=
  if entry.2 > acc.2 then (entry.1, entry.2) else acc

/-- Euclidean distance between two landmark points. -/
noncomputable def dist2D (p q : Point ℝ) : ℝ :=
  Real.sqrt ((p.x - q.x) ^ 2 + (p.y - q.y) ^ 2)

/-! ## Monotonicity (C1) -/

theorem FaceApiLiveness.detectBlinkEAR_mono_faceApi {α : Type} [LinearOrderedField α]
    (e : JSNum α) (now : Int) (s : State) :
    s.blinkCount ≤ (detectBlinkEAR e now s).blinkCount ∧
    (s.livenessConfirmed = true → (detectBlinkEAR e now s).livenessConfirmed = true) := by
  unfold detectBlinkEAR
  dsimp only
  split_ifs <;> simp

theorem FaceApiLiveness.tick_mono_faceApi (d : List (Detection ℝ)) (now : Int) (s : State) :
    s.blinkCount ≤ (tick d now s).state.blinkCount ∧
    (s.livenessConfirmed = true → (tick d now s).state.livenessConfirmed = true) := by
  unfold tick
  cases d with
  | nil => simp
  | cons d ds =>
    simp only [detectBlink]
    split
    · simp
    · split
      · simp
      · exact detectBlinkEAR_mono_faceApi _ _ _

theorem Script.detectBlinkEAR_mono_script {α : Type} [LinearOrderedField α]
    (e : JSNum α) (now : Int) (s : State α) :
    s.blinkCount ≤ (detectBlinkEAR e now s).blinkCount ∧
    (s.livenessConfirmed = true → (detectBlinkEAR e now s).livenessConfirmed = true) := by
  unfold detectBlinkEAR
  dsimp only
  split_ifs <;> simp_all

theorem Script.detectHeadMovement_mono_script {α : Type} [LinearOrderedField α]
    (lm : Landmarks α) (s : State α) :
    s.blinkCount = (detectHeadMovement lm s).state.blinkCount ∧
    (s.livenessConfirmed = true → (detectHeadMovement lm s).state.livenessConfirmed = true) := by
  unfold detectHeadMovement
  split
  · simp
  · cases h : s.lastHeadPosition with
    | none => simp
    | some last =>
      simp only []
      split_ifs <;> simp

theorem Script.tick_mono_script (d : List (Detection ℝ)) (now : Int) (s : State ℝ) :
    s.blinkCount ≤ (tick d now s).state.blinkCount ∧
    (s.livenessConfirmed = true → (tick d now s).state.livenessConfirmed = true) := by
  unfold tick
  cases d with
  | nil => simp
  | cons d ds =>
    have hb : s.blinkCount ≤ (detectBlink d.landmarks now s).state.blinkCount ∧
        (s.livenessConfirmed = true →
          (detectBlink d.landmarks now s).state.livenessConfirmed = true) := by
      unfold detectBlink
      split
      · simp
      · split
        · simp
        · exact detectBlinkEAR_mono_script _ _ _
    simp only []
    generalize detectBlink d.landmarks now s = r1 at hb ⊢
    obtain ⟨s1, e1⟩ := r1
    cases e1 with
    | some e => exact hb
    | none =>
      have hh := detectHeadMovement_mono_script d.landmarks s1
      simp only []
      generalize detectHeadMovement d.landmarks s1 = r2 at hh ⊢
      obtain ⟨s2, e2⟩ := r2
      simp only at hb hh
      cases e2 with
      | some e => exact ⟨hh.1 ▸ hb.1, fun h => hh.2 (hb.2 h)⟩
      | none => exact ⟨hh.1 ▸ hb.1, fun h => hh.2 (hb.2 h)⟩

theorem FaceApiLiveness.run_mono_faceApi (ticks : List (List (Detection ℝ) × Int)) (s : State) :
    s.blinkCount ≤ (run s ticks).blinkCount ∧
    (s.livenessConfirmed = true → (run s ticks).livenessConfirmed = true) := by
  induction ticks generalizing s with
  | nil => simp [run]
  | cons t ts ih =>
    have h1 := tick_mono_faceApi t.1 t.2 s
    have h2 := ih (tick t.1 t.2 s).state
    exact ⟨le_trans h1.1 h2.1, fun h => h2.2 (h1.2 h)⟩

theorem Script.run_mono_script (ticks : List (List (Detection ℝ) × Int)) (s : State ℝ) :
    s.blinkCount ≤ (run s ticks).blinkCount ∧
    (s.livenessConfirmed = true → (run s ticks).livenessConfirmed = true) := by
  induction ticks generalizing s with
  | nil => simp [run]
  | cons t ts ih =>
    have h1 := tick_mono_script t.1 t.2 s
    have h2 := ih (tick t.1 t.2 s).state
    exact ⟨le_trans h1.1 h2.1, fun h => h2.2 (h1.2 h)⟩

/-- C1: in both scripts a tick that is not a reset (with a face, with no face,
or ended by an exception) never lowers `blinkCount` and never turns
`livenessConfirmed` from true to false; hence the same holds after every finite
sequence of such ticks. -/
theorem C1_monotonicity :
    (∀ (s : FaceApiLiveness.State) (d : List (Detection ℝ)) (now : Int),
      s.blinkCount ≤ (FaceApiLiveness.tick d now s).state.blinkCount ∧
      (s.livenessConfirmed = true →
        (FaceApiLiveness.tick d now s).state.livenessConfirmed = true)) ∧
    (∀ (s : Script.State ℝ) (d : List (Detection ℝ)) (now : Int),
      s.blinkCount ≤ (Script.tick d now s).state.blinkCount ∧
      (s.livenessConfirmed = true → (Script.tick d now s).state.livenessConfirmed = true)) ∧
    (∀ (s : FaceApiLiveness.State) (ticks : List (List (Detection ℝ) × Int)),
      s.blinkCount ≤ (FaceApiLiveness.run s ticks).blinkCount ∧
      (s.livenessConfirmed = true → (FaceApiLiveness.run s ticks).livenessConfirmed = true)) ∧
    (∀ (s : Script.State ℝ) (ticks : List (List (Detection ℝ) × Int)),
      s.blinkCount ≤ (Script.run s ticks).blinkCount ∧
      (s.livenessConfirmed = true → (Script.run s ticks).livenessConfirmed = true)) :=
  ⟨fun s d now => FaceApiLiveness.tick_mono_faceApi d now s,
   fun s d now => Script.tick_mono_script d now s,
   fun s ticks => FaceApiLiveness.run_mono_faceApi ticks s,
   fun s ticks => Script.run_mono_script ticks s⟩

/-! ## Debounce (C2, C3, C10) -/

theorem FaceApiLiveness.feed_append {α : Type} [LinearOrderedField α]
    (s : State) (xs ys : List (JSNum α × Int)) :
    feed s (xs ++ ys) = feed (feed s xs) ys := by
  induction xs generalizing s with
  | nil => rfl
  | cons x xs ih => simpa [feed] using ih _

theorem FaceApiLiveness.lastBlinkTime_le_step {α : Type} [LinearOrderedField α]
    (e : JSNum α) (now T : Int) (s : State) (h : T ≤ s.lastBlinkTime) :
    T ≤ (detectBlinkEAR e now s).lastBlinkTime := by
  unfold detectBlinkEAR TIME_THRESHOLD
  dsimp only
  split_ifs with h1 h2 h3
  · show T ≤ now
    omega
  · exact h
  · exact h
  · exact h

theorem FaceApiLiveness.lastBlinkTime_le_feed {α : Type} [LinearOrderedField α]
    (rs : List (JSNum α × Int)) (T : Int) (s : State) (h : T ≤ s.lastBlinkTime) :
    T ≤ (feed s rs).lastBlinkTime := by
  induction rs generalizing s with
  | nil => exact h
  | cons r rs ih => exact ih _ (lastBlinkTime_le_step r.1 r.2 T s h)

theorem FaceApiLiveness.detectBlinkEAR_edge {α : Type} [LinearOrderedField α]
    (s : State) (r : JSNum α × Int) (h : closingEdge s r = true) :
    detectBlinkEAR r.1 r.2 s =
      if r.2 - s.lastBlinkTime > TIME_THRESHOLD then
        { blinkCount := s.blinkCount + 1, lastEyeState := EyeState.eyeClosed,
          livenessConfirmed := true, lastBlinkTime := r.2 }
      else { s with lastEyeState := EyeState.eyeClosed } := by
  unfold closingEdge at h
  unfold detectBlinkEAR
  rw [if_pos h]

/-- C2 (as stated, refuted): with `lastBlinkTime = 0`, Open->Closed transitions
at 50 ms and 100 ms (an opening reading at 60 ms between them) are less than
200 ms apart, yet together they leave `blinkCount` at its old value 1: neither is
counted. -/
theorem C2_counterexample :
    let s : FaceApiLiveness.State :=
      { blinkCount := 1, lastEyeState := EyeState.eyeOpen, livenessConfirmed := true,
        lastBlinkTime := 0 }
    let r1 : JSNum ℚ × Int := (JSNum.fin 0.10, 50)
    let mid : List (JSNum ℚ × Int) := [(JSNum.fin 0.30, 60)]
    let r2 : JSNum ℚ × Int := (JSNum.fin 0.10, 100)
    FaceApiLiveness.closingEdge s r1 = true ∧
    FaceApiLiveness.noClosingEdge (FaceApiLiveness.detectBlinkEAR r1.1 r1.2 s) mid = true ∧
    FaceApiLiveness.closingEdge
      (FaceApiLiveness.feed (FaceApiLiveness.detectBlinkEAR r1.1 r1.2 s) mid) r2 = true ∧
    |r2.2 - r1.2| < 200 ∧
    (FaceApiLiveness.feed s (r1 :: mid ++ [r2])).blinkCount = s.blinkCount ∧
    (FaceApiLiveness.feed s (r1 :: mid ++ [r2])).blinkCount ≠ s.blinkCount + 1 := by
  norm_num [FaceApiLiveness.feed, FaceApiLiveness.detectBlinkEAR, JSNum.lt, JSNum.ge,
    EAR_THRESHOLD, TIME_THRESHOLD, FaceApiLiveness.closingEdge, FaceApiLiveness.noClosingEdge,
    abs_lt]

/-- C2 (amended): in `faceApiLiveness.js`, two Open->Closed transitions whose
timestamps are less than 200 ms apart are never both counted, whatever ticks lie
between them: the first adds 1 to `blinkCount` exactly when it comes more than
200 ms after `lastBlinkTime`, the second likewise, and the two additions sum to at
most 1 (so to exactly 1 whenever the first is counted), not 2. -/
theorem C2_debounce {α : Type} [LinearOrderedField α]
    (s : FaceApiLiveness.State) (r1 r2 : JSNum α × Int) (mid : List (JSNum α × Int))
    (h1 : FaceApiLiveness.closingEdge s r1 = true)
    (h2 : FaceApiLiveness.closingEdge
      (FaceApiLiveness.feed (FaceApiLiveness.detectBlinkEAR r1.1 r1.2 s) mid) r2 = true)
    (hclose : |r2.2 - r1.2| < TIME_THRESHOLD) :
    let s1 := FaceApiLiveness.detectBlinkEAR r1.1 r1.2 s
    let s2 := FaceApiLiveness.feed s1 mid
    let s3 := FaceApiLiveness.detectBlinkEAR r2.1 r2.2 s2
    let a : Nat := if r1.2 - s.lastBlinkTime > TIME_THRESHOLD then 1 else 0
    let b : Nat := if r2.2 - s2.lastBlinkTime > TIME_THRESHOLD then 1 else 0
    FaceApiLiveness.feed s (r1 :: mid ++ [r2]) = s3 ∧
    s1.blinkCount = s.blinkCount + a ∧
    s3.blinkCount = s2.blinkCount + b ∧
    a + b ≤ 1 := by
  intro s1 s2 s3 a b
  have e1 : s1 = _ := FaceApiLiveness.detectBlinkEAR_edge s r1 h1
  have e2 : s3 = _ := FaceApiLiveness.detectBlinkEAR_edge s2 r2 h2
  have hfeed : FaceApiLiveness.feed s (r1 :: mid ++ [r2]) = s3 := by
    rw [List.cons_append, FaceApiLiveness.feed, FaceApiLiveness.feed_append]
    rfl
  refine ⟨hfeed, ?_, ?_, ?_⟩
  · rw [e1]
    by_cases hc : r1.2 - s.lastBlinkTime > TIME_THRESHOLD <;> simp [a, hc]
  · rw [e2]
    by_cases hc : r2.2 - s2.lastBlinkTime > TIME_THRESHOLD <;> simp [b, hc]
  · by_cases hc : r1.2 - s.lastBlinkTime > TIME_THRESHOLD
    · have hs1 : r1.2 ≤ s1.lastBlinkTime := by
        rw [e1]
        simp [hc]
      have hs2 : r1.2 ≤ s2.lastBlinkTime :=
        FaceApiLiveness.lastBlinkTime_le_feed mid r1.2 s1 hs1
      rw [abs_lt] at hclose
      have hb : ¬ (r2.2 - s2.lastBlinkTime > TIME_THRESHOLD) := by
        unfold TIME_THRESHOLD at *
        omega
      simp [a, b, hc, hb]
    · by_cases hb : r2.2 - s2.lastBlinkTime > TIME_THRESHOLD <;> simp [a, b, hc, hb]

/-- C2 witness: transitions at 300 ms and 400 ms after `lastBlinkTime = 0`; the
first is counted, the second is not. -/
theorem C2_debounce_witness :
    (FaceApiLiveness.detectBlinkEAR (JSNum.fin (0.10 : ℚ)) 300
      ({ blinkCount := 0, lastEyeState := EyeState.eyeOpen, livenessConfirmed := false,
         lastBlinkTime := 0 } : FaceApiLiveness.State)).blinkCount =
      0 + (if (300 : Int) - 0 > TIME_THRESHOLD then 1 else 0) :=
  (C2_debounce
    ({ blinkCount := 0, lastEyeState := EyeState.eyeOpen, livenessConfirmed := false,
       lastBlinkTime := 0 } : FaceApiLiveness.State)
    ((JSNum.fin 0.10, 300) : JSNum ℚ × Int) (JSNum.fin 0.10, 400) [(JSNum.fin 0.30, 350)]
    (by norm_num [FaceApiLiveness.closingEdge, JSNum.lt, EAR_THRESHOLD])
    (by norm_num [FaceApiLiveness.feed, FaceApiLiveness.closingEdge,
      FaceApiLiveness.detectBlinkEAR, JSNum.lt, JSNum.ge, EAR_THRESHOLD, TIME_THRESHOLD])
    (by norm_num [TIME_THRESHOLD, abs_lt])).2.1

/-- C3: from a freshly reset `faceApiLiveness.js` session whose `lastBlinkTime` is
more than 200 ms before t = 0, the readings 0.30, 0.10 at 0 ms, 0.30 at 50 ms,
0.10 at 120 ms, 0.30 at 300 ms, 0.10 at 305 ms end with `blinkCount = 2` and
`livenessConfirmed = true`; the count is 1 after the edge at 0 ms, still 1 after the
edge at 120 ms, and 2 after the edge at 305 ms. -/
theorem C3_blink_scenario {α : Type} [LinearOrderedField α]
    (s : FaceApiLiveness.State) (t : Int)
    (h : 0 - (FaceApiLiveness.resetLivenessDetection s).lastBlinkTime > TIME_THRESHOLD) :
    let s0 := FaceApiLiveness.resetLivenessDetection s
    let r1 : List (JSNum α × Int) := [(JSNum.fin 0.30, t), (JSNum.fin 0.10, 0)]
    let r2 : List (JSNum α × Int) := [(JSNum.fin 0.30, 50), (JSNum.fin 0.10, 120)]
    let r3 : List (JSNum α × Int) := [(JSNum.fin 0.30, 300), (JSNum.fin 0.10, 305)]
    (FaceApiLiveness.feed s0 r1).blinkCount = 1 ∧
    (FaceApiLiveness.feed s0 (r1 ++ r2)).blinkCount = 1 ∧
    (FaceApiLiveness.feed s0 (r1 ++ r2 ++ r3)).blinkCount = 2 ∧
    (FaceApiLiveness.feed s0 (r1 ++ r2 ++ r3)).livenessConfirmed = true := by
  have h200 : TIME_THRESHOLD = 200 := rfl
  rw [h200] at h
  have hpos : (200 : Int) < -s.lastBlinkTime := by
    simpa [FaceApiLiveness.resetLivenessDetection] using h
  norm_num [FaceApiLiveness.feed, FaceApiLiveness.detectBlinkEAR, JSNum.lt, JSNum.ge,
    EAR_THRESHOLD, TIME_THRESHOLD, FaceApiLiveness.resetLivenessDetection, hpos]

/-- C3 witness: the session was loaded (and last stamped) at -1000 ms. -/
theorem C3_blink_scenario_witness :
    (FaceApiLiveness.feed
      (FaceApiLiveness.resetLivenessDetection (FaceApiLiveness.initialState (-1000)))
      ([((JSNum.fin 0.30 : JSNum ℚ), (-100 : Int)), (JSNum.fin 0.10, 0)] ++
        [(JSNum.fin 0.30, 50), (JSNum.fin 0.10, 120)] ++
        [(JSNum.fin 0.30, 300), (JSNum.fin 0.10, 305)])).blinkCount = 2 :=
  (C3_blink_scenario (FaceApiLiveness.initialState (-1000)) (-100)
    (by decide)).2.2.1

/-- C10 (as stated, refuted): from the initial state of `faceApiLiveness.js`
(`lastEyeState = null`, `blinkCount = 0`) a first reading 0.10 < 0.25 leaves
`lastEyeState` at `null`; it does not become `'closed'`. -/
theorem C10_counterexample :
    (FaceApiLiveness.initialState 0).lastEyeState = EyeState.eyeNull ∧
    (FaceApiLiveness.initialState 0).blinkCount = 0 ∧
    (0.10 : ℚ) < 0.25 ∧
    (FaceApiLiveness.detectBlinkEAR (JSNum.fin (0.10 : ℚ)) 1000
      (FaceApiLiveness.initialState 0)).lastEyeState = EyeState.eyeNull ∧
    (FaceApiLiveness.detectBlinkEAR (JSNum.fin (0.10 : ℚ)) 1000
      (FaceApiLiveness.initialState 0)).lastEyeState ≠ EyeState.eyeClosed := by
  have hne : EyeState.eyeNull ≠ EyeState.eyeOpen := by decide
  norm_num [FaceApiLiveness.detectBlinkEAR, JSNum.lt, JSNum.ge, EAR_THRESHOLD,
    FaceApiLiveness.initialState, hne]
  decide

/-- C10 (amended): in `faceApiLiveness.js`, from any state with
`lastEyeState = null`, a finite first reading moves `lastEyeState` to `'open'` when
`avgEAR >= 0.25` and leaves it `null` when `avgEAR < 0.25`, and in both cases
`blinkCount`, `lastBlinkTime` and `livenessConfirmed` keep their values, whatever
the timestamp.  In `script.js`, whose `lastEyeState` starts as `'open'`, a first
reading `>= 0.25` credits nothing, while a first reading `< 0.25` moves to `'closed'`
and sets `blinkCount` to 1 with `livenessConfirmed` still false. -/
theorem C10_first_reading {α : Type} [LinearOrderedField α] (v : α) (now : Int) :
    (∀ s : FaceApiLiveness.State, s.lastEyeState = EyeState.eyeNull →
      (FaceApiLiveness.detectBlinkEAR (JSNum.fin v) now s).lastEyeState =
        (if v ≥ 0.25 then EyeState.eyeOpen else EyeState.eyeNull) ∧
      (FaceApiLiveness.detectBlinkEAR (JSNum.fin v) now s).blinkCount = s.blinkCount ∧
      (FaceApiLiveness.detectBlinkEAR (JSNum.fin v) now s).lastBlinkTime = s.lastBlinkTime ∧
      (FaceApiLiveness.detectBlinkEAR (JSNum.fin v) now s).livenessConfirmed =
        s.livenessConfirmed) ∧
    (∀ loadTime : Int,
      (Script.detectBlinkEAR (JSNum.fin v) now (Script.initialState α loadTime)).lastEyeState =
        (if v ≥ 0.25 then EyeState.eyeOpen else EyeState.eyeClosed) ∧
      (Script.detectBlinkEAR (JSNum.fin v) now (Script.initialState α loadTime)).blinkCount =
        (if v ≥ 0.25 then 0 else 1) ∧
      (Script.detectBlinkEAR (JSNum.fin v) now
        (Script.initialState α loadTime)).livenessConfirmed = false) := by
  simp only [ge_iff_le]
  constructor
  · intro s hs
    unfold FaceApiLiveness.detectBlinkEAR
    by_cases hv : (0.25 : α) ≤ v
    · have hv2 : ¬ v < 0.25 := not_lt.mpr hv
      simp [JSNum.lt, JSNum.ge, EAR_THRESHOLD, hs, hv, hv2]
    · have hv2 : v < 0.25 := not_le.mp hv
      simp [JSNum.lt, JSNum.ge, EAR_THRESHOLD, hs, hv, hv2]
  · intro loadTime
    unfold Script.detectBlinkEAR
    by_cases hv : (0.25 : α) ≤ v
    · have hv2 : ¬ v < 0.25 := not_lt.mpr hv
      simp [JSNum.lt, Script.initialState, hv, hv2]
    · have hv2 : v < 0.25 := not_le.mp hv
      simp [JSNum.lt, Script.initialState, hv, hv2]

/-- C10 witness: the initial state of `faceApiLiveness.js` and the reading 0.30. -/
theorem C10_first_reading_witness :
    (FaceApiLiveness.detectBlinkEAR (JSNum.fin (0.30 : ℚ)) 7
      (FaceApiLiveness.initialState 0)).lastEyeState =
        (if (0.30 : ℚ) ≥ 0.25 then EyeState.eyeOpen else EyeState.eyeNull) :=
  ((C10_first_reading (0.30 : ℚ) 7).1 (FaceApiLiveness.initialState 0) rfl).1

/-! ## Reset, no-face ticks and head movement (C4, C5, C6) -/

/-- C4 (as stated, refuted): in both scripts a state whose `lastEyeState` is
`'closed'` still has `lastEyeState = 'closed'` after `resetLivenessDetection`, not
the unknown value `null`. -/
theorem C4_counterexample :
    (Script.resetLivenessDetection
      ({ blinkCount := 3, lastEyeState := EyeState.eyeClosed, livenessConfirmed := true,
         lastBlinkTime := 0, lastHeadPosition := some ⟨1, 2⟩,
         currentEmotion := "happy" } : Script.State ℚ)).lastEyeState ≠ EyeState.eyeNull ∧
    (FaceApiLiveness.resetLivenessDetection
      { blinkCount := 3, lastEyeState := EyeState.eyeClosed, livenessConfirmed := true,
        lastBlinkTime := 0 }).lastEyeState ≠ EyeState.eyeNull := by
  constructor <;> simp [Script.resetLivenessDetection, FaceApiLiveness.resetLivenessDetection]

/-- C4 (amended): for every state, `resetLivenessDetection` sets `blinkCount = 0`
and `livenessConfirmed = false` (and, in `script.js`, `lastHeadPosition` to absent)
and leaves `lastEyeState`, `lastBlinkTime` (and `currentEmotion`) as they were;
calling it twice in a row yields the same state as calling it once. -/
theorem C4_reset :
    (∀ (s : Script.State ℝ),
      Script.resetLivenessDetection s =
        { blinkCount := 0, lastEyeState := s.lastEyeState, livenessConfirmed := false,
          lastBlinkTime := s.lastBlinkTime, lastHeadPosition := none,
          currentEmotion := s.currentEmotion } ∧
      Script.resetLivenessDetection (Script.resetLivenessDetection s) =
        Script.resetLivenessDetection s) ∧
    (∀ (s : FaceApiLiveness.State),
      FaceApiLiveness.resetLivenessDetection s =
        { blinkCount := 0, lastEyeState := s.lastEyeState, livenessConfirmed := false,
          lastBlinkTime := s.lastBlinkTime } ∧
      FaceApiLiveness.resetLivenessDetection (FaceApiLiveness.resetLivenessDetection s) =
        FaceApiLiveness.resetLivenessDetection s) :=
  ⟨fun _ => ⟨rfl, rfl⟩, fun _ => ⟨rfl, rfl⟩⟩

/-- C5: in both scripts a tick whose detection result is empty ends without an
exception and leaves every module variable (`blinkCount`, `lastEyeState`,
`lastBlinkTime`, `lastHeadPosition`, `livenessConfirmed`, `currentEmotion`) as it
was. -/
theorem C5_no_face_noop :
    (∀ (s : FaceApiLiveness.State) (now : Int),
      (FaceApiLiveness.tick [] now s).state = s ∧ (FaceApiLiveness.tick [] now s).error = none) ∧
    (∀ (s : Script.State ℝ) (now : Int),
      (Script.tick [] now s).state = s ∧ (Script.tick [] now s).error = none) :=
  ⟨fun _ _ => ⟨rfl, rfl⟩, fun _ _ => ⟨rfl, rfl⟩⟩

/-- C6 (as stated, refuted): in `script.js`, from the reset initial state, after
the nose positions (100,100), (100,100), (103,100), (106,100) the flag
`livenessConfirmed` is still false: the fourth sample is compared with the third,
a movement of 3, not 6. -/
theorem C6_counterexample :
    let lm : ℚ → ℚ → Landmarks ℚ := fun x y =>
      { getLeftEye := [], getRightEye := [], getNose := [{ x := x, y := y }] }
    let s0 := Script.resetLivenessDetection (Script.initialState ℚ 0)
    let o1 := Script.detectHeadMovement (lm 100 100) s0
    let o2 := Script.detectHeadMovement (lm 100 100) o1.state
    let o3 := Script.detectHeadMovement (lm 103 100) o2.state
    let o4 := Script.detectHeadMovement (lm 106 100) o3.state
    o3.state.lastHeadPosition = some { x := 103, y := 100 } ∧
    o4.error = none ∧
    o4.state.livenessConfirmed = false := by
  norm_num [Script.detectHeadMovement, Script.resetLivenessDetection, Script.movementThreshold,
    Script.initialState]

/-- C6 (amended): in `script.js`, from a reset state, the nose positions (100,100),
(100,100), (103,100), (106,100) fed to `detectHeadMovement` in that order leave
`livenessConfirmed` false after each of the four samples, each sample being
compared with the one just before it (movements 0, 3 and 3, none above 5), and
`lastHeadPosition` ends as (106,100); a fourth sample (109,100) instead, 6 away
from the third, makes `livenessConfirmed` true. -/
theorem C6_head_movement {α : Type} [LinearOrderedField α]
    (s : Script.State α) (le re rest : List (Point α)) :
    let lm : α → α → Landmarks α := fun x y =>
      { getLeftEye := le, getRightEye := re, getNose := { x := x, y := y } :: rest }
    let s0 := Script.resetLivenessDetection s
    let o1 := Script.detectHeadMovement (lm 100 100) s0
    let o2 := Script.detectHeadMovement (lm 100 100) o1.state
    let o3 := Script.detectHeadMovement (lm 103 100) o2.state
    let o4 := Script.detectHeadMovement (lm 106 100) o3.state
    let o4b := Script.detectHeadMovement (lm 109 100) o3.state
    o1.state.livenessConfirmed = false ∧ o2.state.livenessConfirmed = false ∧
    o3.state.livenessConfirmed = false ∧ o4.state.livenessConfirmed = false ∧
    o1.error = none ∧ o2.error = none ∧ o3.error = none ∧ o4.error = none ∧
    o4.state.lastHeadPosition = some { x := 106, y := 100 } ∧
    o4b.state.livenessConfirmed = true := by
  norm_num [Script.detectHeadMovement, Script.resetLivenessDetection, Script.movementThreshold]

/-! ## Emotion labelling (C7) -/

theorem getDominantEmotion_eq {α : Type} [LinearOrderedField α] (xs : List (String × α)) :
    getDominantEmotion xs = (xs.foldl dominantStep ("None", 0)).1 := rfl

theorem dominantFold_le {α : Type} [LinearOrderedField α] (xs : List (String × α))
    (acc : String × α) (h : ∀ e ∈ xs, e.2 ≤ acc.2) : xs.foldl dominantStep acc = acc := by
  induction xs generalizing acc with
  | nil => rfl
  | cons x xs ih =>
    have hx : ¬ x.2 > acc.2 := not_lt.mpr (h x (List.mem_cons_self _ _))
    simp only [List.foldl_cons, dominantStep, if_neg hx]
    exact ih acc (fun e he => h e (List.mem_cons_of_mem _ he))

theorem dominantFold_gt {α : Type} [LinearOrderedField α] (xs : List (String × α))
    (acc : String × α) (h : ∃ e ∈ xs, acc.2 < e.2) :
    ∃ pre e post, xs = pre ++ e :: post ∧ (∀ x ∈ pre, x.2 < e.2) ∧ (∀ x ∈ post, x.2 ≤ e.2) ∧
      acc.2 < e.2 ∧ xs.foldl dominantStep acc = e := by
  induction xs generalizing acc with
  | nil => simp at h
  | cons x xs ih =>
    by_cases hx : x.2 > acc.2
    · have hstep : dominantStep acc x = x := by simp [dominantStep, hx]
      by_cases hrest : ∃ e ∈ xs, x.2 < e.2
      · obtain ⟨pre, e, post, hxs, hpre, hpost, hlt, hfold⟩ := ih x hrest
        refine ⟨x :: pre, e, post, by simp [hxs], ?_, hpost, lt_trans hx hlt, ?_⟩
        · intro y hy
          rcases List.mem_cons.mp hy with rfl | hy
          · exact hlt
          · exact hpre y hy
        · simpa [List.foldl_cons, hstep] using hfold
      · have hall : ∀ e ∈ xs, e.2 ≤ x.2 := by
          intro e he
          by_contra hc
          exact hrest ⟨e, he, not_le.mp hc⟩
        refine ⟨[], x, xs, rfl, by simp, hall, hx, ?_⟩
        simpa [List.foldl_cons, hstep] using dominantFold_le xs x hall
    · have hstep : dominantStep acc x = acc := by simp [dominantStep, hx]
      have hrest : ∃ e ∈ xs, acc.2 < e.2 := by
        obtain ⟨e, he, hlt⟩ := h
        rcases List.mem_cons.mp he with rfl | he
        · exact absurd hlt hx
        · exact ⟨e, he, hlt⟩
      obtain ⟨pre, e, post, hxs, hpre, hpost, hlt, hfold⟩ := ih acc hrest
      refine ⟨x :: pre, e, post, by simp [hxs], ?_, hpost, hlt, ?_⟩
      · intro y hy
        rcases List.mem_cons.mp hy with rfl | hy
        · exact lt_of_le_of_lt (not_lt.mp hx) hlt
        · exact hpre y hy
      · simpa [List.foldl_cons, hstep] using hfold

theorem Script.tick_liveness_expressions (lm : Landmarks ℝ) (e1 e2 : List (String × ℝ))
    (ds1 ds2 : List (Detection ℝ)) (now : Int) (s : State ℝ) :
    (tick (⟨lm, e1⟩ :: ds1) now s).state.livenessConfirmed =
      (tick (⟨lm, e2⟩ :: ds2) now s).state.livenessConfirmed ∧
    (tick (⟨lm, e1⟩ :: ds1) now s).state.blinkCount =
      (tick (⟨lm, e2⟩ :: ds2) now s).state.blinkCount := by
  simp only [tick]
  generalize detectBlink lm now s = r1
  obtain ⟨s1, e1⟩ := r1
  cases e1 with
  | some e => simp
  | none =>
    simp only []
    generalize detectHeadMovement lm s1 = r2
    obtain ⟨s2, e2⟩ := r2
    cases e2 <;> simp

/-- C7: `getDominantEmotion` returns `'None'` when the list is empty or no score
is greater than 0; otherwise it returns the label of the first entry, in
iteration order, whose score equals the maximum score (every earlier score is
strictly smaller, every later one at most equal), and that maximum is > 0.  The
label takes no part in `livenessConfirmed`: the function reads no module variable,
and in both scripts the tick leaves the same `livenessConfirmed` and `blinkCount`
whatever the expression scores are. -/
theorem C7_dominant_emotion (entries : List (String × ℝ)) :
    ((∀ e ∈ entries, e.2 ≤ 0) → getDominantEmotion entries = "None") ∧
    ((∃ e ∈ entries, 0 < e.2) →
      ∃ pre e post, entries = pre ++ e :: post ∧ (∀ x ∈ pre, x.2 < e.2) ∧
        (∀ x ∈ post, x.2 ≤ e.2) ∧ 0 < e.2 ∧ getDominantEmotion entries = e.1) ∧
    (∀ (lm : Landmarks ℝ) (other : List (String × ℝ)) (ds1 ds2 : List (Detection ℝ))
        (now : Int) (s : Script.State ℝ),
      (Script.tick (⟨lm, entries⟩ :: ds1) now s).state.livenessConfirmed =
        (Script.tick (⟨lm, other⟩ :: ds2) now s).state.livenessConfirmed) ∧
    (∀ (lm : Landmarks ℝ) (other : List (String × ℝ)) (ds1 ds2 : List (Detection ℝ))
        (now : Int) (s : FaceApiLiveness.State),
      (FaceApiLiveness.tick (⟨lm, entries⟩ :: ds1) now s).state.livenessConfirmed =
        (FaceApiLiveness.tick (⟨lm, other⟩ :: ds2) now s).state.livenessConfirmed) := by
  refine ⟨?_, ?_, ?_, ?_⟩
  · intro h
    rw [getDominantEmotion_eq, dominantFold_le entries ("None", 0) h]
  · intro h
    obtain ⟨pre, e, post, h1, h2, h3, h4, h5⟩ := dominantFold_gt entries ("None", 0) h
    exact ⟨pre, e, post, h1, h2, h3, h4, by rw [getDominantEmotion_eq, h5]⟩
  · intro lm other ds1 ds2 now s
    exact (Script.tick_liveness_expressions lm entries other ds1 ds2 now s).1
  · intro lm other ds1 ds2 now s
    rfl

/-! ## Eye aspect ratio and malformed contours (C8) -/

theorem hypot_eq_dist2D (p q : Point ℝ) : hypot (p.x - q.x) (p.y - q.y) = dist2D p q := by
  unfold hypot dist2D
  congr 1
  ring

theorem calculateEAR_six (p0 p1 p2 p3 p4 p5 : Point ℝ) (rest : List (Point ℝ)) :
    calculateEAR (p0 :: p1 :: p2 :: p3 :: p4 :: p5 :: rest) =
      .ok (JSNum.div (dist2D p1 p5 + dist2D p2 p4) (2 * dist2D p0 p3)) := by
  simp only [calculateEAR, hypot_eq_dist2D]
  norm_num

theorem eyeAspectRatio_eq (eye : List (Point ℝ)) : eyeAspectRatio eye = calculateEAR eye := rfl

/-- With both ratios computed, `detectBlink` of `faceApiLiveness.js` is its
conditional run on their average. -/
theorem FaceApiLiveness.detectBlink_of_ok (lm : Landmarks ℝ) (now : Int) (s : State)
    (a b : JSNum ℝ) (ha : calculateEAR lm.getLeftEye = .ok a)
    (hb : calculateEAR lm.getRightEye = .ok b) :
    detectBlink lm now s = ⟨detectBlinkEAR (a.add b).half now s, none⟩ := by
  simp only [detectBlink, ha, hb]

/-- With both ratios computed, `detectBlink` of `script.js` is its two
conditionals run on their average. -/
theorem Script.detectBlink_of_ok_script (lm : Landmarks ℝ) (now : Int) (s : State ℝ)
    (a b : JSNum ℝ) (ha : eyeAspectRatio lm.getLeftEye = .ok a)
    (hb : eyeAspectRatio lm.getRightEye = .ok b) :
    detectBlink lm now s = ⟨detectBlinkEAR (a.add b).half now s, none⟩ := by
  simp only [detectBlink, ha, hb]

theorem calculateEAR_short (eye : List (Point ℝ)) (h : eye.length < 6) :
    calculateEAR eye = .error JSError.typeError := by
  have h5 : eye[5]? = none := List.getElem?_eq_none (by omega)
  unfold calculateEAR
  split
  · rename_i h5s _ _ _ _
    rw [h5] at h5s
    exact absurd h5s (by simp)
  · rfl

theorem dist2D_eq_of_sq (p q : Point ℝ) (r : ℝ) (hr : 0 ≤ r)
    (h : (p.x - q.x) ^ 2 + (p.y - q.y) ^ 2 = r ^ 2) : dist2D p q = r := by
  unfold dist2D
  rw [h]
  exact Real.sqrt_sq hr

theorem detectBlink_short_A (lm : Landmarks ℝ) (now : Int) (s : FaceApiLiveness.State)
    (h : lm.getLeftEye.length < 6 ∨ lm.getRightEye.length < 6) :
    (FaceApiLiveness.detectBlink lm now s).state = s ∧
    (FaceApiLiveness.detectBlink lm now s).error = some JSError.typeError := by
  unfold FaceApiLiveness.detectBlink
  rcases h with h | h
  · rw [calculateEAR_short _ h]
    exact ⟨rfl, rfl⟩
  · rw [calculateEAR_short lm.getRightEye h]
    cases calculateEAR lm.getLeftEye with
    | error e => cases e; exact ⟨rfl, rfl⟩
    | ok v => exact ⟨rfl, rfl⟩

theorem detectBlink_short_B (lm : Landmarks ℝ) (now : Int) (s : Script.State ℝ)
    (h : lm.getLeftEye.length < 6 ∨ lm.getRightEye.length < 6) :
    (Script.detectBlink lm now s).state = s ∧
    (Script.detectBlink lm now s).error = some JSError.typeError := by
  unfold Script.detectBlink
  simp only [eyeAspectRatio_eq]
  rcases h with h | h
  · rw [calculateEAR_short _ h]
    exact ⟨rfl, rfl⟩
  · rw [calculateEAR_short lm.getRightEye h]
    cases calculateEAR lm.getLeftEye with
    | error e => cases e; exact ⟨rfl, rfl⟩
    | ok v => exact ⟨rfl, rfl⟩

/-- C8 (amended): in both scripts, when an eye contour of the first detection
has fewer than 6 points, the tick ends with the `TypeError` raised by the missing
array element (there is no separate `InvalidInput` check) and every module
variable is as before the tick; a contour with more than 6 points raises nothing:
its first six points are used and the rest ignored. -/
theorem C8_short_contour (d : Detection ℝ) (ds : List (Detection ℝ)) (now : Int)
    (sA : FaceApiLiveness.State) (sB : Script.State ℝ)
    (h : d.landmarks.getLeftEye.length < 6 ∨ d.landmarks.getRightEye.length < 6) :
    ((FaceApiLiveness.tick (d :: ds) now sA).state = sA ∧
      (FaceApiLiveness.tick (d :: ds) now sA).error = some JSError.typeError) ∧
    ((Script.tick (d :: ds) now sB).state = sB ∧
      (Script.tick (d :: ds) now sB).error = some JSError.typeError) ∧
    (∀ (p0 p1 p2 p3 p4 p5 : Point ℝ) (rest : List (Point ℝ)),
      calculateEAR (p0 :: p1 :: p2 :: p3 :: p4 :: p5 :: rest) =
        calculateEAR [p0, p1, p2, p3, p4, p5] ∧
      eyeAspectRatio (p0 :: p1 :: p2 :: p3 :: p4 :: p5 :: rest) =
        eyeAspectRatio [p0, p1, p2, p3, p4, p5]) := by
  refine ⟨detectBlink_short_A d.landmarks now sA h, ?_, ?_⟩
  · have hb := detectBlink_short_B d.landmarks now sB h
    simp only [Script.tick]
    generalize Script.detectBlink d.landmarks now sB = r at hb ⊢
    obtain ⟨s1, e1⟩ := r
    simp only at hb
    obtain ⟨hs, he⟩ := hb
    subst hs he
    exact ⟨rfl, rfl⟩
  · intro p0 p1 p2 p3 p4 p5 rest
    rw [eyeAspectRatio_eq, eyeAspectRatio_eq, calculateEAR_six, calculateEAR_six]
    exact ⟨rfl, rfl⟩

theorem calculateEAR_wide (rest : List (Point ℝ)) :
    calculateEAR ((⟨-5, 0⟩ : Point ℝ) :: ⟨-3, 2⟩ :: ⟨3, 2⟩ :: ⟨5, 0⟩ :: ⟨3, -2⟩ :: ⟨-3, -2⟩ :: rest) =
      .ok (JSNum.fin (2 / 5)) := by
  have d15 : dist2D (⟨-3, 2⟩ : Point ℝ) ⟨-3, -2⟩ = 4 :=
    dist2D_eq_of_sq _ _ 4 (by norm_num) (by norm_num)
  have d24 : dist2D (⟨3, 2⟩ : Point ℝ) ⟨3, -2⟩ = 4 :=
    dist2D_eq_of_sq _ _ 4 (by norm_num) (by norm_num)
  have d03 : dist2D (⟨-5, 0⟩ : Point ℝ) ⟨5, 0⟩ = 10 :=
    dist2D_eq_of_sq _ _ 10 (by norm_num) (by norm_num)
  rw [calculateEAR_six, d15, d24, d03]
  norm_num [JSNum.div]

/-- C8 (as stated, refuted): a detection whose two eye contours have 7 points
each does not make the tick fail.  In `faceApiLiveness.js` the tick ends without
an exception and moves `lastEyeState` from `null` to `'open'`; in `script.js` it
ends without an exception and records the nose position. -/
theorem C8_counterexample :
    let eye : List (Point ℝ) := [⟨-5, 0⟩, ⟨-3, 2⟩, ⟨3, 2⟩, ⟨5, 0⟩, ⟨3, -2⟩, ⟨-3, -2⟩, ⟨0, 0⟩]
    let d : Detection ℝ :=
      { landmarks := { getLeftEye := eye, getRightEye := eye, getNose := [⟨0, 0⟩] },
        expressions := [] }
    eye.length = 7 ∧
    (FaceApiLiveness.tick [d] 0 (FaceApiLiveness.initialState 0)).error = none ∧
    (FaceApiLiveness.tick [d] 0 (FaceApiLiveness.initialState 0)).state.lastEyeState =
      EyeState.eyeOpen ∧
    (FaceApiLiveness.tick [d] 0 (FaceApiLiveness.initialState 0)).state ≠
      FaceApiLiveness.initialState 0 ∧
    (Script.tick [d] 0 (Script.initialState ℝ 0)).error = none ∧
    (Script.tick [d] 0 (Script.initialState ℝ 0)).state.lastHeadPosition = some ⟨0, 0⟩ := by
  intro eye d
  have hA : FaceApiLiveness.tick [d] 0 (FaceApiLiveness.initialState 0) =
      ⟨{ blinkCount := 0, lastEyeState := EyeState.eyeOpen, livenessConfirmed := false,
         lastBlinkTime := 0 }, none⟩ := by
    simp only [FaceApiLiveness.tick, FaceApiLiveness.detectBlink, d, eye, calculateEAR_wide]
    norm_num [JSNum.add, JSNum.half, FaceApiLiveness.detectBlinkEAR, JSNum.lt, JSNum.ge,
      EAR_THRESHOLD, FaceApiLiveness.initialState]
  have hB : Script.tick [d] 0 (Script.initialState ℝ 0) =
      ⟨{ blinkCount := 0, lastEyeState := EyeState.eyeOpen, livenessConfirmed := false,
         lastBlinkTime := 0, lastHeadPosition := some ⟨0, 0⟩, currentEmotion := "None" },
       none⟩ := by
    simp only [Script.tick, Script.detectBlink, eyeAspectRatio_eq, d, eye, calculateEAR_wide]
    norm_num [JSNum.add, JSNum.half, Script.detectBlinkEAR, JSNum.lt, Script.initialState,
      Script.detectHeadMovement, getDominantEmotion]
  rw [hA, hB]
  refine ⟨rfl, rfl, rfl, ?_, rfl, rfl⟩
  simp [FaceApiLiveness.initialState]

/-- C8 witness: both eye contours have 4 points. -/
theorem C8_short_contour_witness :
    (FaceApiLiveness.tick
      [({ landmarks :=
            { getLeftEye := [⟨0, 0⟩, ⟨1, 1⟩, ⟨2, 1⟩, ⟨3, 0⟩],
              getRightEye := [⟨5, 0⟩, ⟨6, 1⟩, ⟨7, 1⟩, ⟨8, 0⟩], getNose := [⟨4, 3⟩] },
          expressions := [("happy", 1)] } : Detection ℝ)] 0
      (FaceApiLiveness.initialState 0)).error = some JSError.typeError :=
  (C8_short_contour
    { landmarks :=
        { getLeftEye := [⟨0, 0⟩, ⟨1, 1⟩, ⟨2, 1⟩, ⟨3, 0⟩],
          getRightEye := [⟨5, 0⟩, ⟨6, 1⟩, ⟨7, 1⟩, ⟨8, 0⟩], getNose := [⟨4, 3⟩] },
      expressions := [("happy", 1)] }
    [] 0 (FaceApiLiveness.initialState 0) (Script.initialState ℝ 0)
    (Or.inl (by simp))).1.2

/-- C7 witness: three scores with the maximum 0.6 reached twice. -/
theorem C7_dominant_emotion_witness :
    ∃ pre e post, [("neutral", (0.3 : ℝ)), ("happy", 0.6), ("sad", 0.6)] = pre ++ e :: post ∧
      (∀ x ∈ pre, x.2 < e.2) ∧ (∀ x ∈ post, x.2 ≤ e.2) ∧ 0 < e.2 ∧
      getDominantEmotion [("neutral", (0.3 : ℝ)), ("happy", 0.6), ("sad", 0.6)] = e.1 :=
  (C7_dominant_emotion [("neutral", (0.3 : ℝ)), ("happy", 0.6), ("sad", 0.6)]).2.1
    ⟨("happy", 0.6), by simp, by norm_num⟩

/-- C1 witness: a confirmed state stays confirmed through a tick with a face. -/
theorem C1_monotonicity_witness :
    (FaceApiLiveness.tick
      [({ landmarks :=
            { getLeftEye := [⟨-5, 0⟩, ⟨-3, 2⟩, ⟨3, 2⟩, ⟨5, 0⟩, ⟨3, -2⟩, ⟨-3, -2⟩],
              getRightEye := [⟨-5, 0⟩, ⟨-3, 2⟩, ⟨3, 2⟩, ⟨5, 0⟩, ⟨3, -2⟩, ⟨-3, -2⟩],
              getNose := [⟨4, 3⟩] },
          expressions := [] } : Detection ℝ)] 500
      { blinkCount := 2, lastEyeState := EyeState.eyeClosed, livenessConfirmed := true,
        lastBlinkTime := 100 }).state.livenessConfirmed = true :=
  (C1_monotonicity.1
    { blinkCount := 2, lastEyeState := EyeState.eyeClosed, livenessConfirmed := true,
      lastBlinkTime := 100 }
    [{ landmarks :=
        { getLeftEye := [⟨-5, 0⟩, ⟨-3, 2⟩, ⟨3, 2⟩, ⟨5, 0⟩, ⟨3, -2⟩, ⟨-3, -2⟩],
          getRightEye := [⟨-5, 0⟩, ⟨-3, 2⟩, ⟨3, 2⟩, ⟨5, 0⟩, ⟨3, -2⟩, ⟨-3, -2⟩],
          getNose := [⟨4, 3⟩] },
       expressions := [] }] 500).2 rfl
